import Mathlib

/-!
Shallow embedding of the flashcard scheduling / deduplication core of the
lang-agent repository (`backend/services/flashcards.py`,
`backend/services/storage/repositories.py`, `backend/services/storage/models.py`).

Conventions of the embedding:
* Timestamps are integers (minutes); `timedelta(minutes=k)` becomes `+ k`.
* Python `int` is `Int` (intervals) or `Nat` (ids, review counts — the schema
  constrains them to be nonnegative).
* The database is a record of lists of rows; SQLAlchemy's session-level
  inserts/updates/deletes become pure state transformations.  The schema's
  `ondelete` behaviour (CASCADE on `user_cards.deck_id`, SET NULL on
  `users.active_deck_id`) and the ORM cascade on `DeckRecord.user_cards` are
  part of the modelled delete operation, as declared in `models.py`.
* `text.strip()` / `text.casefold()` are modelled over the characters of the
  string: strip drops whitespace at both ends, casefold is modelled as
  character-wise lowercasing (exact Unicode case folding is immaterial to the
  claims, which only use the normalization as a deterministic key).
* Exceptions become `Except`/`Option`; the distinct raise sites are the
  constructors of `ServiceError`.
* `int(x * 1.5)` / `int(x * 2.5)` on a positive int `x`: the float products
  are exact in IEEE binary for every representable interval, and Python `int`
  truncation on a positive value is the floor, so they are embedded as the
  exact integer divisions `3*x/2` and `5*x/2`.
-/

namespace LangAgent

/-! ## String normalization (Python `str.strip` / `str.casefold`) -/

/-- Model of Python's whitespace test used by `str.strip()`. -/
def isPySpace (c : Char) : Bool := c.isWhitespace

/-- Drop whitespace from both ends of a character list. -/
def stripChars (l : List Char) : List Char :=
  ((l.dropWhile isPySpace).reverse.dropWhile isPySpace).reverse

/-- Model of Python `text.strip()`. -/
def pyStrip (s : String) : String := String.mk (stripChars s.data)

/-- Model of Python `text.casefold()` (character-wise lowercasing). -/
def pyCasefold (s : String) : String := String.mk (s.data.map Char.toLower)

/-- `FlashcardRepository.normalize_text`: `text.strip().casefold()`. -/
def normalize_text (s : String) : String := pyCasefold (pyStrip s)

/-! ## Ratings and the interval policy (`FlashcardService._calculate_next_interval`) -/

/-- `ReviewRating` enum from `flashcards.py`. -/
inductive ReviewRating where
  | again
  | review
  | easy
deriving DecidableEq, Repr

/-- The string payload of each `ReviewRating` member (its `.value`). -/
def ReviewRating.value : ReviewRating → String
  | .again => "again"
  | .review => "review"
  | .easy => "easy"

/-- `FlashcardService._calculate_next_interval(previous_interval, review_count, rating)`.
`int(previous * 1.5)` and `int(previous * 2.5)` are embedded as exact floor
divisions (see the header comment). -/
def calculate_next_interval (previous_interval : Int) (review_count : Nat)
    (rating : ReviewRating) : Int :=
  let base_again : Int := 10
  let base_review : Int := 12 * 60
  let base_easy : Int := 3 * 24 * 60
  match rating with
  | .again => base_again
  | .review =>
      let previous := max previous_interval base_again
      if review_count = 0 then base_review
      else max base_review ((3 * previous) / 2)
  | .easy =>
      let previous := max previous_interval base_again
      if review_count = 0 then base_easy
      else max base_easy ((5 * previous) / 2)

/-! ## Data model (`storage/models.py`) -/

/-- `UserRecord` (`users` table). -/
structure UserRecord where
  id : Nat
  username : Option String
  first_name : Option String
  last_name : Option String
  active_deck_id : Option Nat
deriving DecidableEq, Repr

/-- `DeckRecord` (`decks` table). -/
structure DeckRecord where
  id : Nat
  owner_id : Option Nat
  slug : String
  name : String
  description : Option String
  created_at : Int
deriving DecidableEq, Repr

/-- `CardRecord` (`cards` table): canonical flashcard content. -/
structure CardRecord where
  id : Nat
  source_text : String
  normalized_source_text : String
  target_text : String
  normalized_target_text : String
  example_sentence : String
  example_translation : String
  part_of_speech : Option String
deriving DecidableEq, Repr

/-- `UserCardRecord` (`user_cards` table): per-user, per-deck scheduling state. -/
structure UserCardRecord where
  id : Nat
  user_id : Nat
  deck_id : Nat
  card_id : Nat
  last_rating : Option String
  interval_minutes : Int
  review_count : Nat
  next_review_at : Int
  last_reviewed_at : Option Int
  created_at : Int
deriving DecidableEq, Repr

/-- The persistent store: one list of rows per table, plus an id allocator
standing for the autoincrement primary keys. -/
structure DB where
  users : List UserRecord
  decks : List DeckRecord
  cards : List CardRecord
  user_cards : List UserCardRecord
  next_id : Nat
deriving DecidableEq, Repr

/-- The empty database. -/
def DB.empty : DB := ⟨[], [], [], [], 0⟩

/-- The distinct error conditions raised by the service / repository layer. -/
inductive ServiceError where
  | notFound
  | invalidArgument
  | duplicateKey
  | generationFailed
  | emptyInput
deriving DecidableEq, Repr

/-- Payload produced by the content-generator collaborator
(`FlashcardGenerator.generate_flashcard`). -/
structure GeneratedContent where
  source_text : String
  target_text : String
  example_sentence : String
  example_translation : String
  part_of_speech : Option String
deriving DecidableEq, Repr

/-- The content generator: external collaborator; may fail. -/
def Generator : Type := String → Except ServiceError GeneratedContent

/-! ## Repository operations (`storage/repositories.py`) -/

/-- `UserRepository.upsert_user`: create the user row if absent, otherwise
update the profile fields (the active deck reference is untouched). -/
def upsert_user (db : DB) (user_id : Nat) (username first_name last_name : Option String) :
    UserRecord × DB :=
  match db.users.find? (fun u => u.id = user_id) with
  | some u =>
      let u' : UserRecord := { u with username := username, first_name := first_name,
                                      last_name := last_name }
      (u', { db with users := db.users.map (fun v => if v.id = user_id then u' else v) })
  | none =>
      let u' : UserRecord := { id := user_id, username := username, first_name := first_name,
                               last_name := last_name, active_deck_id := none }
      (u', { db with users := db.users ++ [u'] })

/-- `FlashcardRepository.get_deck`: ownership-scoped deck lookup. -/
def get_deck (db : DB) (owner_id deck_id : Nat) : Option DeckRecord :=
  db.decks.find? (fun d => d.id = deck_id && d.owner_id = some owner_id)

/-- `FlashcardRepository.ensure_deck` with the default slug/name: fetch the
owner's deck with slug `default`, creating it when missing. -/
def ensure_deck (db : DB) (owner_id : Nat) (now : Int) : DeckRecord × DB :=
  match db.decks.find? (fun d => d.owner_id = some owner_id && d.slug = "default") with
  | some d => (d, db)
  | none =>
      let d : DeckRecord := { id := db.next_id, owner_id := some owner_id, slug := "default",
                              name := "Основная колода", description := none, created_at := now }
      (d, { db with decks := db.decks ++ [d], next_id := db.next_id + 1 })

/-- `FlashcardRepository.get_card_by_normalized`. -/
def get_card_by_normalized (db : DB) (normalized_source : String) : Option CardRecord :=
  db.cards.find? (fun c => c.normalized_source_text = normalized_source)

/-- `FlashcardRepository.get_card_by_normalized_target`. -/
def get_card_by_normalized_target (db : DB) (normalized_target : String) : Option CardRecord :=
  db.cards.find? (fun c => c.normalized_target_text = normalized_target)

/-- `FlashcardRepository.create_card`: computes both normalized forms and
inserts; the unique index on `normalized_source_text` makes the flush raise a
duplicate-key error when the key is already present. -/
def create_card (db : DB) (source_text target_text example_sentence example_translation : String)
    (part_of_speech : Option String) : Except ServiceError (CardRecord × DB) :=
  let normalized_source := normalize_text source_text
  let normalized_target := normalize_text target_text
  if (db.cards.find? (fun c => c.normalized_source_text = normalized_source)).isSome then
    .error .duplicateKey
  else
    let card : CardRecord :=
      { id := db.next_id, source_text := pyStrip source_text,
        normalized_source_text := normalized_source,
        target_text := pyStrip target_text,
        normalized_target_text := normalized_target,
        example_sentence := pyStrip example_sentence,
        example_translation := pyStrip example_translation,
        part_of_speech := part_of_speech.map pyStrip }
    .ok (card, { db with cards := db.cards ++ [card], next_id := db.next_id + 1 })

/-- `FlashcardRepository.ensure_user_card`: idempotent creation of the
(user, deck, card) scheduling row; a new row is immediately due. -/
def ensure_user_card (db : DB) (user_id deck_id card_id : Nat) (now : Int) :
    (UserCardRecord × Bool) × DB :=
  match db.user_cards.find?
      (fun r => r.user_id = user_id && r.deck_id = deck_id && r.card_id = card_id) with
  | some r => ((r, false), db)
  | none =>
      let r : UserCardRecord :=
        { id := db.next_id, user_id := user_id, deck_id := deck_id, card_id := card_id,
          last_rating := none, interval_minutes := 0, review_count := 0,
          next_review_at := now, last_reviewed_at := none, created_at := now }
      ((r, true), { db with user_cards := db.user_cards ++ [r], next_id := db.next_id + 1 })

/-- `FlashcardRepository.schedule_review` applied to one row: sets the
review metadata from the rating and the (clamped) new interval. -/
def apply_schedule (r : UserCardRecord) (rating : ReviewRating) (interval_minutes : Int)
    (now : Int) : UserCardRecord :=
  { r with last_rating := some rating.value,
           interval_minutes := max interval_minutes 0,
           last_reviewed_at := some now,
           next_review_at := now + max interval_minutes 0,
           review_count := r.review_count + 1 }

/-- `FlashcardRepository.schedule_review`: mutate the row with the given
primary key in place. -/
def schedule_review (db : DB) (user_card_id : Nat) (rating : ReviewRating)
    (interval_minutes : Int) (now : Int) : DB :=
  { db with user_cards := db.user_cards.map fun r =>
      if r.id = user_card_id then apply_schedule r rating interval_minutes now else r }

/-- Due filter of `FlashcardRepository.fetch_next_due_card`: the user's rows,
due at `as_of`, optionally restricted to one deck. -/
def isDue (user_id : Nat) (deck_id : Option Nat) (as_of : Int) (r : UserCardRecord) : Bool :=
  r.user_id = user_id && r.next_review_at ≤ as_of &&
    (match deck_id with
     | some d => r.deck_id = d
     | none => true)

/-- Strict order used by `ORDER BY next_review_at ASC, created_at ASC`. -/
def dueBefore (a b : UserCardRecord) : Bool :=
  a.next_review_at < b.next_review_at ||
    (a.next_review_at = b.next_review_at && a.created_at < b.created_at)

/-- One step of selecting the first row of the ordered result set. -/
def pickEarlier (acc : Option UserCardRecord) (r : UserCardRecord) : Option UserCardRecord :=
  match acc with
  | none => some r
  | some m => if dueBefore r m then some r else some m

/-- `FlashcardRepository.fetch_next_due_card`: the head of the user's due rows
ordered by `next_review_at` then `created_at` (`LIMIT 1`), or `none`. -/
def fetch_next_due_card (db : DB) (user_id : Nat) (deck_id : Option Nat) (as_of : Int) :
    Option UserCardRecord :=
  (db.user_cards.filter (isDue user_id deck_id as_of)).foldl pickEarlier none

/-- `FlashcardRepository.update_deck`: partial update; a missing/blank name is
skipped rather than stored, a blank description is stored as NULL. -/
def update_deck (db : DB) (owner_id deck_id : Nat) (name description : Option String) :
    Except ServiceError (DeckRecord × DB) :=
  match get_deck db owner_id deck_id with
  | none => .error .notFound
  | some deck =>
      let name' := match name with
        | some n => if pyStrip n ≠ "" then pyStrip n else deck.name
        | none => deck.name
      let description' := match description with
        | some d => if pyStrip d ≠ "" then some (pyStrip d) else none
        | none => deck.description
      let deck' : DeckRecord := { deck with name := name', description := description' }
      .ok (deck', { db with decks := db.decks.map (fun d => if d.id = deck_id then deck' else d) })

/-- `FlashcardRepository.delete_deck` together with the schema's cascades:
the ORM cascade on `DeckRecord.user_cards` (and `ondelete=CASCADE` on
`user_cards.deck_id`) removes the deck's assignment rows, and
`ondelete=SET NULL` on `users.active_deck_id` clears dangling active-deck
references. -/
def delete_deck (db : DB) (owner_id deck_id : Nat) : Except ServiceError DB :=
  match get_deck db owner_id deck_id with
  | none => .error .notFound
  | some _ =>
      .ok { db with
        decks := db.decks.filter (fun d => d.id ≠ deck_id),
        user_cards := db.user_cards.filter (fun r => r.deck_id ≠ deck_id),
        users := db.users.map (fun u =>
          if u.active_deck_id = some deck_id then { u with active_deck_id := none } else u) }

/-! ## Service layer (`flashcards.py`) -/

/-- `UserProfile` dataclass. -/
structure UserProfile where
  user_id : Nat
  username : Option String
  first_name : Option String
  last_name : Option String
deriving DecidableEq, Repr

/-- `FlashcardData` dataclass (presentation payload of a canonical card). -/
structure FlashcardData where
  card_id : Nat
  source_text : String
  target_text : String
  example_sentence : String
  example_translation : String
  part_of_speech : Option String
deriving DecidableEq, Repr

instance : Inhabited FlashcardData :=
  ⟨{ card_id := 0, source_text := "", target_text := "", example_sentence := "",
     example_translation := "", part_of_speech := none }⟩

/-- `_to_flashcard_data`. -/
def toFlashcardData (c : CardRecord) : FlashcardData :=
  { card_id := c.id, source_text := c.source_text, target_text := c.target_text,
    example_sentence := c.example_sentence, example_translation := c.example_translation,
    part_of_speech := c.part_of_speech }

/-- `FlashcardCreationResult` dataclass.  The free-form `error` string is
replaced by the error condition that produced it. -/
structure FlashcardCreationResult where
  input_text : String
  created_card : Bool
  linked_to_user : Bool
  card : Option FlashcardData
  reused_existing_card : Bool
  user_card_id : Option Nat
  error : Option ServiceError
deriving DecidableEq, Repr

/-- The single result returned by `add_words` when no usable word remains
after trimming. -/
def emptyInputResult : FlashcardCreationResult :=
  { input_text := "", created_card := false, linked_to_user := false, card := none,
    reused_existing_card := false, user_card_id := none, error := some .emptyInput }

/-- The per-word result built in the `except` branch of the `add_words` loop. -/
def errorResult (word : String) (e : ServiceError) : FlashcardCreationResult :=
  { input_text := word, created_card := false, linked_to_user := false, card := none,
    reused_existing_card := false, user_card_id := none, error := some e }

/-- Body of the per-word loop of `FlashcardService.add_words`: look up the
canonical card by normalized source, generate + create on a miss, then ensure
the user-card link; any raised error is caught and recorded on the word's
result (the batch continues). -/
def addOneWord (gen : Generator) (user_id deck_id : Nat) (now : Int) (db : DB) (word : String) :
    FlashcardCreationResult × DB :=
  let normalized := normalize_text word
  match get_card_by_normalized db normalized with
  | some card =>
      let ((uc, created_link), db1) := ensure_user_card db user_id deck_id card.id now
      ({ input_text := word, created_card := false, reused_existing_card := true,
         linked_to_user := created_link, card := some (toFlashcardData card),
         user_card_id := some uc.id, error := none }, db1)
  | none =>
      match gen word with
      | .error e => (errorResult word e, db)
      | .ok g =>
          let src := if g.source_text = "" then word else g.source_text
          match create_card db src g.target_text g.example_sentence
              g.example_translation g.part_of_speech with
          | .error e => (errorResult word e, db)
          | .ok (card, db1) =>
              let ((uc, created_link), db2) := ensure_user_card db1 user_id deck_id card.id now
              ({ input_text := word, created_card := true, reused_existing_card := false,
                 linked_to_user := created_link, card := some (toFlashcardData card),
                 user_card_id := some uc.id, error := none }, db2)

/-- The `for word in cleaned_words` loop of `add_words`. -/
def addWordsLoop (gen : Generator) (user_id deck_id : Nat) (now : Int) :
    DB → List String → List FlashcardCreationResult × DB
  | db, [] => ([], db)
  | db, w :: ws =>
      let (r, db1) := addOneWord gen user_id deck_id now db w
      let (rs, db2) := addWordsLoop gen user_id deck_id now db1 ws
      (r :: rs, db2)

/-- `FlashcardService.add_words`: trim and drop blank words; an empty cleaned
list short-circuits to a single error result before any row is touched;
otherwise upsert the user, ensure the default deck, and run the per-word
loop. -/
def add_words (gen : Generator) (db : DB) (profile : UserProfile) (words : List String)
    (now : Int) : List FlashcardCreationResult × DB :=
  let cleaned := (words.map pyStrip).filter (fun w => w ≠ "")
  if cleaned.isEmpty then ([emptyInputResult], db)
  else
    let (user, db1) :=
      upsert_user db profile.user_id profile.username profile.first_name profile.last_name
    let (deck, db2) := ensure_deck db1 user.id now
    addWordsLoop gen user.id deck.id now db2 cleaned

/-- `StudyCard` dataclass. -/
structure StudyCard where
  user_card_id : Nat
  deck_id : Nat
  deck_name : String
  card : FlashcardData
deriving DecidableEq, Repr

/-- `FlashcardService.get_user_card`: primary-key lookup followed by the
mandatory ownership check; a missing row and a row owned by another user
raise the identical error. -/
def get_user_card (db : DB) (user_id user_card_id : Nat) : Except ServiceError StudyCard :=
  match db.user_cards.find? (fun r => r.id = user_card_id) with
  | none => .error .notFound
  | some r =>
      if r.user_id = user_id then
        .ok { user_card_id := r.id, deck_id := r.deck_id,
              deck_name := ((db.decks.find? (fun d => d.id = r.deck_id)).map
                (fun d => d.name)).getD "",
              card := ((db.cards.find? (fun c => c.id = r.card_id)).map toFlashcardData).getD
                default }
      else .error .notFound

/-- `FlashcardService.record_review`: load the assignment (ownership-checked),
compute the next interval from its current state, and persist via
`schedule_review`. -/
def record_review (db : DB) (user_id user_card_id : Nat) (rating : ReviewRating) (now : Int) :
    Except ServiceError DB :=
  match db.user_cards.find? (fun r => r.id = user_card_id) with
  | none => .error .notFound
  | some r =>
      if r.user_id = user_id then
        let interval := calculate_next_interval r.interval_minutes r.review_count rating
        .ok (schedule_review db user_card_id rating interval now)
      else .error .notFound

/-- `FlashcardService.create_card_for_deck`: requires a non-blank prompt and
an owned deck; looks up by normalized source, then by normalized target, then
generates and creates; there is no exception handler, so generation and
duplicate-key errors propagate to the caller. -/
def create_card_for_deck (gen : Generator) (db : DB) (profile : UserProfile) (deck_id : Nat)
    (prompt_text : String) (now : Int) : Except ServiceError (FlashcardCreationResult × DB) :=
  let cleaned := pyStrip prompt_text
  if cleaned = "" then .error .invalidArgument
  else
    let (user, db1) :=
      upsert_user db profile.user_id profile.username profile.first_name profile.last_name
    match get_deck db1 user.id deck_id with
    | none => .error .notFound
    | some deck =>
        let normalized := normalize_text cleaned
        let found := match get_card_by_normalized db1 normalized with
          | some c => some c
          | none => get_card_by_normalized_target db1 normalized
        match found with
        | some card =>
            let ((uc, created_link), db2) := ensure_user_card db1 user.id deck.id card.id now
            .ok ({ input_text := cleaned, created_card := false, reused_existing_card := true,
                   linked_to_user := created_link, card := some (toFlashcardData card),
                   user_card_id := some uc.id, error := none }, db2)
        | none =>
            match gen cleaned with
            | .error e => .error e
            | .ok g =>
                let src := if g.source_text = "" then cleaned else g.source_text
                match create_card db1 src g.target_text g.example_sentence
                    g.example_translation g.part_of_speech with
                | .error e => .error e
                | .ok (card, db2) =>
                    let ((uc, created_link), db3) :=
                      ensure_user_card db2 user.id deck.id card.id now
                    .ok ({ input_text := cleaned, created_card := true,
                           reused_existing_card := false, linked_to_user := created_link,
                           card := some (toFlashcardData card), user_card_id := some uc.id,
                           error := none }, db3)

/-! ## Deck creation (`FlashcardRepository.create_deck` and the service guard) -/

/-- Python `\w` character test (letters, digits, underscore; ASCII model of
the `re.UNICODE` class). -/
def isWordChar (c : Char) : Bool := c.isAlpha || c.isDigit || c = '_'

/-- `re.sub(r"[^\w]+", "-", s)`: each maximal run of non-word characters is
replaced by a single hyphen. -/
def collapseNonWordRuns : List Char → List Char
  | [] => []
  | c :: cs =>
      if isWordChar c then c :: collapseNonWordRuns cs
      else '-' :: collapseNonWordRuns (cs.dropWhile (fun x => !isWordChar x))
termination_by l => l.length
decreasing_by
  all_goals simp_wf
  all_goals
    have := (List.dropWhile_sublist (l := cs) (fun x => !isWordChar x)).length_le
    omega

/-- `str.strip("-")`. -/
def stripDashes (l : List Char) : List Char :=
  ((l.dropWhile (fun c => c = '-')).reverse.dropWhile (fun c => c = '-')).reverse

/-- Python `text.lower()` (character-wise model, as for casefold). -/
def pyLower (s : String) : String := String.mk (s.data.map Char.toLower)

/-- `FlashcardRepository._generate_slug`. -/
def generate_slug (name : String) : String :=
  let cleaned := pyLower (pyStrip name)
  let slug := String.mk (stripDashes (collapseNonWordRuns cleaned.data))
  if slug = "" then "deck" else slug

/-- `FlashcardRepository._slug_exists`. -/
def slug_exists (db : DB) (owner_id : Nat) (slug : String) : Bool :=
  (db.decks.find? (fun d => d.owner_id = some owner_id && d.slug = slug)).isSome

/-- The `index`-th probe of `_ensure_unique_slug`: the bare slug first, then
`slug-2`, `slug-3`, …. -/
def slugCandidate (slug : String) (index : Nat) : String :=
  if index = 1 then slug else slug ++ "-" ++ toString index

/-- `FlashcardRepository._ensure_unique_slug`: return the first free probe.
The Python `while` loop terminates because distinct colliding probes name
distinct existing decks, so among the first `decks.length + 1` probes one is
always free; the fallback branch is unreachable. -/
def ensure_unique_slug (db : DB) (owner_id : Nat) (slug : String) : String :=
  match (List.range (db.decks.length + 1)).find?
      (fun j => !slug_exists db owner_id (slugCandidate slug (j + 1))) with
  | some j => slugCandidate slug (j + 1)
  | none => slugCandidate slug (db.decks.length + 2)

/-- `FlashcardRepository.create_deck`: slug derived from the name, made unique
per owner by numeric suffixing. -/
def create_deck (db : DB) (owner_id : Nat) (name : String) (description : Option String)
    (now : Int) : DeckRecord × DB :=
  let slug := generate_slug name
  let unique_slug := ensure_unique_slug db owner_id slug
  let deck : DeckRecord :=
    { id := db.next_id, owner_id := some owner_id, slug := unique_slug,
      name := pyStrip name,
      description := match description with
        | some d => if d = "" then none else some (pyStrip d)
        | none => none,
      created_at := now }
  (deck, { db with decks := db.decks ++ [deck], next_id := db.next_id + 1 })

/-- `FlashcardService.create_deck`: rejects a blank name with InvalidArgument
before touching storage, then upserts the user and creates the deck. -/
def create_deck_service (db : DB) (profile : UserProfile) (name : String)
    (description : Option String) (now : Int) : Except ServiceError (DeckRecord × DB) :=
  if pyStrip name = "" then .error .invalidArgument
  else
    let (user, db1) :=
      upsert_user db profile.user_id profile.username profile.first_name profile.last_name
    let (deck, db2) := create_deck db1 user.id (pyStrip name) description now
    .ok (deck, db2)

/-! ## Concrete sample data used by witnesses and counterexamples -/

/-- A scheduling row owned by user 2 (sample data). -/
def sampleForeignRow : UserCardRecord :=
  { id := 5, user_id := 2, deck_id := 1, card_id := 1, last_rating := none,
    interval_minutes := 0, review_count := 0, next_review_at := 0,
    last_reviewed_at := none, created_at := 0 }

/-- Sample database holding only a row owned by user 2. -/
def sampleDB4 : DB :=
  { users := [], decks := [], cards := [], user_cards := [sampleForeignRow], next_id := 6 }

/-- A reviewed scheduling row owned by user 1 (sample data). -/
def sampleRow6 : UserCardRecord :=
  { id := 7, user_id := 1, deck_id := 2, card_id := 3, last_rating := none,
    interval_minutes := 10, review_count := 1, next_review_at := 50,
    last_reviewed_at := some 40, created_at := 0 }

/-- Sample database for the review-recording witness. -/
def sampleDB6 : DB :=
  { users := [], decks := [], cards := [], user_cards := [sampleRow6], next_id := 8 }

/-- Sample profile. -/
def sampleProfile : UserProfile :=
  { user_id := 1, username := none, first_name := none, last_name := none }

/-- Sample deck owned by user 1. -/
def sampleDeck10 : DeckRecord :=
  { id := 3, owner_id := some 1, slug := "travel", name := "Travel", description := none,
    created_at := 0 }

/-- Sample database holding one owned deck. -/
def sampleDB10 : DB :=
  { users := [], decks := [sampleDeck10], cards := [], user_cards := [], next_id := 4 }

/-- Row of user 1 due at time 1 (sample data). -/
def sampleRow5a : UserCardRecord :=
  { id := 1, user_id := 1, deck_id := 1, card_id := 1, last_rating := none,
    interval_minutes := 0, review_count := 0, next_review_at := 1,
    last_reviewed_at := none, created_at := 0 }

/-- Row of user 1 due at time 2 (sample data). -/
def sampleRow5b : UserCardRecord :=
  { id := 2, user_id := 1, deck_id := 1, card_id := 2, last_rating := none,
    interval_minutes := 0, review_count := 0, next_review_at := 2,
    last_reviewed_at := none, created_at := 0 }

/-- Row of user 1 due at time 3 (sample data). -/
def sampleRow5c : UserCardRecord :=
  { id := 3, user_id := 1, deck_id := 1, card_id := 3, last_rating := none,
    interval_minutes := 0, review_count := 0, next_review_at := 3,
    last_reviewed_at := none, created_at := 0 }

/-- Sample database with three due rows, stored out of order. -/
def sampleDB5 : DB :=
  { users := [], decks := [], cards := [],
    user_cards := [sampleRow5b, sampleRow5a, sampleRow5c], next_id := 4 }

/-- Sample database with no scheduling rows and allocator at 10. -/
def sampleDB7 : DB :=
  { users := [], decks := [], cards := [], user_cards := [], next_id := 10 }

/-- Sample user whose active deck is deck 1. -/
def sampleUser8 : UserRecord :=
  { id := 1, username := none, first_name := none, last_name := none, active_deck_id := some 1 }

/-- Sample owned deck with id 1. -/
def sampleDeck8 : DeckRecord :=
  { id := 1, owner_id := some 1, slug := "a", name := "A", description := none, created_at := 0 }

/-- Sample assignment row living in deck 1. -/
def sampleRow8 : UserCardRecord :=
  { id := 2, user_id := 1, deck_id := 1, card_id := 9, last_rating := none,
    interval_minutes := 0, review_count := 0, next_review_at := 0,
    last_reviewed_at := none, created_at := 0 }

/-- Sample database for the deck-deletion witness. -/
def sampleDB8 : DB :=
  { users := [sampleUser8], decks := [sampleDeck8], cards := [], user_cards := [sampleRow8],
    next_id := 10 }

/-- Sample generator that always proposes the source text `X`, whatever the
word: models a content generator that rewrites the input. -/
def rewritingGen : Generator := fun _ =>
  .ok { source_text := "X", target_text := "t", example_sentence := "e",
        example_translation := "f", part_of_speech := none }

/-- Sample generator that echoes the prompt word as the source text. -/
def echoGen : Generator := fun w =>
  .ok { source_text := w, target_text := "t", example_sentence := "e",
        example_translation := "f", part_of_speech := none }

/-- A second sample profile (a different user). -/
def sampleProfileB : UserProfile :=
  { user_id := 2, username := none, first_name := none, last_name := none }

/-- Sample canonical card whose dedup key is `x`. -/
def sampleCardX : CardRecord :=
  { id := 5, source_text := "X", normalized_source_text := "x", target_text := "T",
    normalized_target_text := "tt", example_sentence := "e", example_translation := "f",
    part_of_speech := none }

/-- Sample deck with id 0 owned by user 1. -/
def sampleDeck3 : DeckRecord :=
  { id := 0, owner_id := some 1, slug := "default", name := "d", description := none,
    created_at := 0 }

/-- Sample database where the key `x` is already taken. -/
def sampleDB3 : DB :=
  { users := [], decks := [sampleDeck3], cards := [sampleCardX], user_cards := [], next_id := 6 }

/-! ## Theorems -/

/-! ## Auxiliary lemmas -/

/-- `dropWhile` is idempotent. -/
theorem dropWhile_self_idem {α : Type} (p : α → Bool) (l : List α) :
    (l.dropWhile p).dropWhile p = l.dropWhile p := by
  cases h : l.dropWhile p with
  | nil => simp
  | cons c cs =>
      have hc : p c = false := by
        have hh := List.head?_dropWhile_not p l
        rw [h] at hh
        simpa using hh
      rw [List.dropWhile_cons_of_neg (by simp [hc])]

/-- A stripped character list has no leading whitespace left. -/
theorem stripChars_dropWhile (m : List Char) :
    (stripChars m).dropWhile isPySpace = stripChars m := by
  cases h : stripChars m with
  | nil => simp
  | cons c cs =>
      have hsplit : m.dropWhile isPySpace =
          stripChars m ++ ((m.dropWhile isPySpace).reverse.takeWhile isPySpace).reverse := by
        have h1 := List.takeWhile_append_dropWhile isPySpace (m.dropWhile isPySpace).reverse
        have h2 := congrArg List.reverse h1
        simp only [List.reverse_append, List.reverse_reverse] at h2
        exact h2.symm
      have hhead : (m.dropWhile isPySpace).head? = some c := by
        rw [hsplit, h]
        rfl
      have hc : isPySpace c = false := by
        have hh := List.head?_dropWhile_not isPySpace m
        rw [hhead] at hh
        simpa using hh
      rw [List.dropWhile_cons_of_neg (by simp [hc])]

/-- Stripping is idempotent. -/
theorem stripChars_idem (l : List Char) : stripChars (stripChars l) = stripChars l := by
  show ((((stripChars l).dropWhile isPySpace).reverse).dropWhile isPySpace).reverse = stripChars l
  rw [stripChars_dropWhile]
  have hrev : (stripChars l).reverse = (l.dropWhile isPySpace).reverse.dropWhile isPySpace := by
    unfold stripChars
    rw [List.reverse_reverse]
  rw [hrev, dropWhile_self_idem, ← hrev, List.reverse_reverse]

/-- `pyStrip` is idempotent, hence `normalize_text` is blind to pre-stripping. -/
theorem pyStrip_idem (s : String) : pyStrip (pyStrip s) = pyStrip s := by
  unfold pyStrip
  rw [show (String.mk (stripChars s.data)).data = stripChars s.data from rfl, stripChars_idem]

/-- Normalizing a stripped word equals normalizing the word. -/
theorem normalize_text_pyStrip (s : String) : normalize_text (pyStrip s) = normalize_text s := by
  unfold normalize_text
  rw [pyStrip_idem]

/-- `find?` by id after an id-preserving update-at-id map: the found row is the
updated one. -/
theorem find?_map_update_id (l : List UserCardRecord) (ucid : Nat)
    (g : UserCardRecord → UserCardRecord) (hg : ∀ x, (g x).id = x.id) (r : UserCardRecord)
    (hf : l.find? (fun x => x.id = ucid) = some r) :
    (l.map fun x => if x.id = ucid then g x else x).find? (fun x => x.id = ucid) =
      some (g r) := by
  induction l with
  | nil => simp at hf
  | cons a l ih =>
      by_cases ha : a.id = ucid
      · rw [List.find?_cons_of_pos _ (by simp [ha])] at hf
        obtain rfl : a = r := by simpa using hf
        rw [List.map_cons, if_pos ha, List.find?_cons_of_pos _ (by simp [hg, ha])]
      · rw [List.find?_cons_of_neg _ (by simp [ha])] at hf
        rw [List.map_cons, if_neg ha, List.find?_cons_of_neg _ (by simp [ha])]
        exact ih hf

/-- `find?` by a different id after an id-preserving update-at-id map: the
found row is untouched. -/
theorem find?_map_update_other (l : List UserCardRecord) (ucid oid : Nat)
    (g : UserCardRecord → UserCardRecord) (hg : ∀ x, (g x).id = x.id) (r : UserCardRecord)
    (hne : oid ≠ ucid) (hf : l.find? (fun x => x.id = oid) = some r) :
    (l.map fun x => if x.id = ucid then g x else x).find? (fun x => x.id = oid) = some r := by
  induction l with
  | nil => simp at hf
  | cons a l ih =>
      by_cases ha : a.id = oid
      · rw [List.find?_cons_of_pos _ (by simp [ha])] at hf
        obtain rfl : a = r := by simpa using hf
        have hau : ¬ a.id = ucid := by rw [ha]; exact hne
        rw [List.map_cons, if_neg hau, List.find?_cons_of_pos _ (by simp [ha])]
      · rw [List.find?_cons_of_neg _ (by simp [ha])] at hf
        rw [List.map_cons]
        have hy : ¬ ((if a.id = ucid then g a else a).id = oid) := by
          by_cases hau : a.id = ucid
          · rw [if_pos hau, hg]; exact ha
          · rw [if_neg hau]; exact ha
        rw [List.find?_cons_of_neg _ (by simp [hy])]
        exact ih hf

/-! ## C1 -/

/-- C1: for every previous interval `p ≥ 0`, review count `c ≥ 0` and rating,
`calculate_next_interval` returns 10 on AGAIN; on REVIEW it returns 720 when
`c = 0` and `max 720 ⌊max p 10 * 1.5⌋` otherwise; on EASY it returns 4320 when
`c = 0` and `max 4320 ⌊max p 10 * 2.5⌋` otherwise. -/
theorem calculate_next_interval_spec (p : Int) (c : Nat) (hp : 0 ≤ p) :
    calculate_next_interval p c .again = 10 ∧
    calculate_next_interval p c .review =
      (if c = 0 then 720 else max 720 ⌊((max p 10 : ℤ) : ℚ) * (3 / 2)⌋) ∧
    calculate_next_interval p c .easy =
      (if c = 0 then 4320 else max 4320 ⌊((max p 10 : ℤ) : ℚ) * (5 / 2)⌋) := by
  have hfloor3 : ⌊((max p 10 : ℤ) : ℚ) * (3 / 2)⌋ = (3 * max p 10) / 2 := by
    have h1 : ((max p 10 : ℤ) : ℚ) * (3 / 2) = ((3 * max p 10 : ℤ) : ℚ) / ((2 : ℕ) : ℚ) := by
      push_cast; ring
    rw [h1, Rat.floor_intCast_div_natCast]
    norm_num
  have hfloor5 : ⌊((max p 10 : ℤ) : ℚ) * (5 / 2)⌋ = (5 * max p 10) / 2 := by
    have h1 : ((max p 10 : ℤ) : ℚ) * (5 / 2) = ((5 * max p 10 : ℤ) : ℚ) / ((2 : ℕ) : ℚ) := by
      push_cast; ring
    rw [h1, Rat.floor_intCast_div_natCast]
    norm_num
  refine ⟨rfl, ?_, ?_⟩
  · by_cases hc : c = 0
    · simp [calculate_next_interval, hc]
    · rw [if_neg hc, hfloor3]
      simp only [calculate_next_interval]
      rw [if_neg hc]
      norm_num
  · by_cases hc : c = 0
    · simp [calculate_next_interval, hc]
    · rw [if_neg hc, hfloor5]
      simp only [calculate_next_interval]
      rw [if_neg hc]
      norm_num

/-- Witness for C1 at `p = 100`, `c = 2`. -/
theorem calculate_next_interval_spec_witness :
    calculate_next_interval 100 2 .review = max 720 ⌊((max 100 10 : ℤ) : ℚ) * (3 / 2)⌋ := by
  have h := calculate_next_interval_spec 100 2 (by decide)
  simpa using h.2.1


/-! ## C4 -/

/-- C4: for every user `a` and assignment id that either does not exist or
belongs to a different user, `get_user_card` fails with the NotFound error —
the same error value in both cases, so the caller cannot distinguish them —
and never returns the other user's data. -/
theorem get_user_card_isolation (db : DB) (a ucid : Nat)
    (h : ∀ r ∈ db.user_cards, r.id = ucid → r.user_id ≠ a) :
    get_user_card db a ucid = .error .notFound := by
  unfold get_user_card
  cases hf : db.user_cards.find? (fun r => r.id = ucid) with
  | none => rfl
  | some r =>
      have hmem := List.mem_of_find?_eq_some hf
      have hid : r.id = ucid := by simpa using List.find?_some hf
      simp [h r hmem hid]

/-- Witness for C4: the foreign-owned case (id 5, owned by user 2, queried by
user 1) and the missing case (id 99) both produce the NotFound error. -/
theorem get_user_card_isolation_witness :
    get_user_card sampleDB4 1 5 = .error .notFound ∧
    get_user_card sampleDB4 1 99 = .error .notFound :=
  ⟨get_user_card_isolation sampleDB4 1 5 (by decide),
   get_user_card_isolation sampleDB4 1 99 (by decide)⟩

/-! ## C6 -/

/-- C6: recording a review on an owned assignment sets `last_rating` to the
rating, `interval_minutes` to `max new 0` where `new` is computed by the
scheduler from the assignment's current interval and review count,
`last_reviewed_at` to the reference time, `next_review_at` to the reference
time plus the stored interval, and increments `review_count` by exactly 1. -/
theorem record_review_spec (db : DB) (u ucid : Nat) (rating : ReviewRating) (t : Int)
    (r : UserCardRecord) (hf : db.user_cards.find? (fun x => x.id = ucid) = some r)
    (hown : r.user_id = u) :
    ∃ db', record_review db u ucid rating t = .ok db' ∧
      db'.user_cards.find? (fun x => x.id = ucid) = some
        { r with
          last_rating := some rating.value,
          interval_minutes :=
            max (calculate_next_interval r.interval_minutes r.review_count rating) 0,
          last_reviewed_at := some t,
          next_review_at :=
            t + max (calculate_next_interval r.interval_minutes r.review_count rating) 0,
          review_count := r.review_count + 1 } := by
  have hstep : record_review db u ucid rating t =
      .ok (schedule_review db ucid rating
        (calculate_next_interval r.interval_minutes r.review_count rating) t) := by
    unfold record_review
    rw [hf]
    simp [hown]
  refine ⟨_, hstep, ?_⟩
  have hm := find?_map_update_id db.user_cards ucid
    (fun x => apply_schedule x rating
      (calculate_next_interval r.interval_minutes r.review_count rating) t)
    (fun x => rfl) r hf
  exact hm

/-- Witness for C6: reviewing the sample row (interval 10, count 1) as EASY at
time 100 stores interval 4320, due time 4420 and count 2. -/
theorem record_review_spec_witness :
    ∃ db', record_review sampleDB6 1 7 .easy 100 = .ok db' ∧
      db'.user_cards.find? (fun x => x.id = 7) = some
        { sampleRow6 with
          last_rating := some ReviewRating.easy.value,
          interval_minutes :=
            max (calculate_next_interval sampleRow6.interval_minutes
              sampleRow6.review_count .easy) 0,
          last_reviewed_at := some 100,
          next_review_at := 100 + max (calculate_next_interval sampleRow6.interval_minutes
            sampleRow6.review_count .easy) 0,
          review_count := sampleRow6.review_count + 1 } :=
  record_review_spec sampleDB6 1 7 .easy 100 sampleRow6 (by decide) (by decide)

/-! ## C9 -/

/-- C9: when the input word list is empty or holds only blank/whitespace
strings, `add_words` returns a single-element result list whose element
carries a populated error (no exception is raised: the embedding returns a
plain value), and the database is returned entirely unchanged — no user,
deck, card or assignment row is created. -/
theorem add_words_empty_input (gen : Generator) (db : DB) (profile : UserProfile)
    (words : List String) (now : Int) (h : ∀ w ∈ words, pyStrip w = "") :
    add_words gen db profile words now = ([emptyInputResult], db) ∧
    emptyInputResult.error.isSome = true := by
  refine ⟨?_, rfl⟩
  unfold add_words
  have hclean : (words.map pyStrip).filter (fun w => w ≠ "") = [] := by
    rw [List.filter_eq_nil_iff]
    intro a ha
    obtain ⟨w, hw, rfl⟩ := List.mem_map.mp ha
    simp [h w hw]
  rw [hclean]
  rfl

/-- Witness for C9 on the batch `["", "  "]`. -/
theorem add_words_empty_input_witness :
    add_words (fun _ => .error .generationFailed) DB.empty sampleProfile ["", "  "] 0 =
      ([emptyInputResult], DB.empty) ∧
    emptyInputResult.error.isSome = true :=
  add_words_empty_input (fun _ => .error .generationFailed) DB.empty sampleProfile
    ["", "  "] 0 (by decide)

/-! ## C10 -/

/-- C10: updating an owned deck with a blank (empty/whitespace-only) name and
no description change succeeds — it does not fail with InvalidArgument the way
deck creation does on a blank name — and the deck's stored name is unchanged
(no blank name is stored). -/
theorem update_deck_blank_name (db : DB) (owner did : Nat) (s : String) (d0 : DeckRecord)
    (profile : UserProfile) (now : Int)
    (hget : get_deck db owner did = some d0) (hblank : pyStrip s = "") :
    update_deck db owner did (some s) none =
      .ok (d0, { db with decks := db.decks.map (fun d => if d.id = did then d0 else d) }) ∧
    (∀ db' d, update_deck db owner did (some s) none = .ok (d, db') →
      d.name = d0.name ∧ ∀ d' ∈ db'.decks, d'.id = did → d'.name = d0.name) ∧
    create_deck_service db profile s none now = .error .invalidArgument := by
  have hcreate : create_deck_service db profile s none now = .error .invalidArgument := by
    unfold create_deck_service
    rw [if_pos hblank]
  have hstep : update_deck db owner did (some s) none =
      .ok (d0, { db with decks := db.decks.map (fun d => if d.id = did then d0 else d) }) := by
    unfold update_deck
    rw [hget]
    simp [hblank]
  refine ⟨hstep, ?_, hcreate⟩
  intro db' d hok
  rw [hstep] at hok
  obtain ⟨h1, h2⟩ := Prod.mk.inj (Except.ok.inj hok)
  subst h1
  refine ⟨rfl, ?_⟩
  intro d' hd' hid
  rw [← h2] at hd'
  obtain ⟨x, hx, rfl⟩ := List.mem_map.mp hd'
  by_cases hxid : x.id = did
  · rw [if_pos hxid]
  · rw [if_neg hxid] at hid ⊢
    exact absurd hid hxid

/-- Witness for C10: updating the sample deck with the blank name `"  "`
succeeds and keeps the name `Travel`. -/
theorem update_deck_blank_name_witness :
    update_deck sampleDB10 1 3 (some "  ") none =
      .ok (sampleDeck10, { sampleDB10 with
        decks := sampleDB10.decks.map (fun d => if d.id = 3 then sampleDeck10 else d) }) ∧
    (∀ db' d, update_deck sampleDB10 1 3 (some "  ") none = .ok (d, db') →
      d.name = sampleDeck10.name ∧
        ∀ d' ∈ db'.decks, d'.id = 3 → d'.name = sampleDeck10.name) ∧
    create_deck_service sampleDB10 sampleProfile "  " none 0 = .error .invalidArgument :=
  update_deck_blank_name sampleDB10 1 3 "  " sampleDeck10 sampleProfile 0
    (by decide) (by decide)

/-! ## C5 -/

/-- `dueBefore` is irreflexive. -/
theorem dueBefore_irrefl (a : UserCardRecord) : dueBefore a a = false := by
  simp [dueBefore]

/-- Negative transitivity of the lexicographic order. -/
theorem dueBefore_false_trans (x a m : UserCardRecord) (h1 : dueBefore x a = false)
    (h2 : dueBefore a m = false) : dueBefore x m = false := by
  simp [dueBefore] at *
  omega

/-- From `x` before `a` and `x` not before `m`, `a` is not before `m`. -/
theorem dueBefore_true_false (x a m : UserCardRecord) (h1 : dueBefore x a = true)
    (h2 : dueBefore x m = false) : dueBefore a m = false := by
  simp [dueBefore] at *
  omega

/-- The fold of `pickEarlier` over a list starting from `some a` yields a
minimal element of `a :: l` under `dueBefore`. -/
theorem foldl_pickEarlier_spec (l : List UserCardRecord) :
    ∀ a : UserCardRecord, ∃ m, l.foldl pickEarlier (some a) = some m ∧
      (m = a ∨ m ∈ l) ∧ dueBefore a m = false ∧ ∀ x ∈ l, dueBefore x m = false := by
  induction l with
  | nil =>
      intro a
      exact ⟨a, rfl, Or.inl rfl, dueBefore_irrefl a, by simp⟩
  | cons x xs ih =>
      intro a
      rw [List.foldl_cons]
      by_cases hxa : dueBefore x a = true
      · have hpick : pickEarlier (some a) x = some x := by simp [pickEarlier, hxa]
        rw [hpick]
        obtain ⟨m, hm, hmem, hxm, hall⟩ := ih x
        refine ⟨m, hm, ?_, dueBefore_true_false x a m hxa hxm, ?_⟩
        · rcases hmem with rfl | h
          · exact Or.inr (List.mem_cons_self ..)
          · exact Or.inr (List.mem_cons_of_mem _ h)
        · intro y hy
          rcases List.mem_cons.mp hy with rfl | hy'
          · exact hxm
          · exact hall y hy'
      · have hxa' : dueBefore x a = false := by simpa using hxa
        have hpick : pickEarlier (some a) x = some a := by simp [pickEarlier, hxa']
        rw [hpick]
        obtain ⟨m, hm, hmem, ham, hall⟩ := ih a
        refine ⟨m, hm, ?_, ham, ?_⟩
        · rcases hmem with rfl | h
          · exact Or.inl rfl
          · exact Or.inr (List.mem_cons_of_mem _ h)
        · intro y hy
          rcases List.mem_cons.mp hy with rfl | hy'
          · exact dueBefore_false_trans y a m hxa' ham
          · exact hall y hy'

/-- C5: `fetch_next_due_card` returns `none` exactly when the user has no due
assignment (never an error), and any returned assignment is a due row of the
user that is minimal: it precedes every other due row by `next_review_at`,
with ties broken by earliest creation time. -/
theorem fetch_next_due_card_spec (db : DB) (u : Nat) (dk : Option Nat) (asOf : Int) :
    (fetch_next_due_card db u dk asOf = none ↔
      ∀ r ∈ db.user_cards, isDue u dk asOf r = false) ∧
    (∀ m, fetch_next_due_card db u dk asOf = some m →
      m ∈ db.user_cards ∧ isDue u dk asOf m = true ∧
      ∀ r ∈ db.user_cards, isDue u dk asOf r = true →
        (m.next_review_at < r.next_review_at ∨
          (m.next_review_at = r.next_review_at ∧ m.created_at ≤ r.created_at))) := by
  unfold fetch_next_due_card
  cases hfl : db.user_cards.filter (isDue u dk asOf) with
  | nil =>
      constructor
      · constructor
        · intro _ r hr
          have := List.filter_eq_nil_iff.mp hfl r hr
          simpa using this
        · intro _
          rfl
      · intro m hm
        simp at hm
  | cons x xs =>
      constructor
      · constructor
        · intro hnone
          obtain ⟨m, hm, _⟩ := foldl_pickEarlier_spec xs x
          rw [List.foldl_cons, show pickEarlier none x = some x from rfl, hm] at hnone
          exact absurd hnone (by simp)
        · intro hall
          have hx : x ∈ db.user_cards.filter (isDue u dk asOf) := by
            rw [hfl]
            exact List.mem_cons_self ..
          obtain ⟨hxmem, hxdue⟩ := List.mem_filter.mp hx
          exact absurd (hall x hxmem) (by simp [hxdue])
      · intro m hsome
        rw [List.foldl_cons, show pickEarlier none x = some x from rfl] at hsome
        obtain ⟨m', hm', hmem, hxm, hallxs⟩ := foldl_pickEarlier_spec xs x
        rw [hm'] at hsome
        obtain rfl : m = m' := by
          injection hsome with h
          exact h.symm
        have hmfl : m ∈ db.user_cards.filter (isDue u dk asOf) := by
          rw [hfl]
          rcases hmem with rfl | h
          · exact List.mem_cons_self ..
          · exact List.mem_cons_of_mem _ h
        obtain ⟨hmm, hmdue⟩ := List.mem_filter.mp hmfl
        refine ⟨hmm, hmdue, ?_⟩
        intro r hr hrdue
        have hrfl : r ∈ x :: xs := by
          rw [← hfl]
          exact List.mem_filter.mpr ⟨hr, hrdue⟩
        have hno : dueBefore r m = false := by
          rcases List.mem_cons.mp hrfl with rfl | hr'
          · exact hxm
          · exact hallxs r hr'
        simp [dueBefore] at hno
        omega

/-- Witness for C5: in the sample database the row due at time 1 is selected
and precedes the row due at time 2. -/
theorem fetch_next_due_card_spec_witness :
    sampleRow5a ∈ sampleDB5.user_cards ∧ isDue 1 none 10 sampleRow5a = true ∧
    (sampleRow5a.next_review_at < sampleRow5b.next_review_at ∨
      (sampleRow5a.next_review_at = sampleRow5b.next_review_at ∧
        sampleRow5a.created_at ≤ sampleRow5b.created_at)) := by
  have h := (fetch_next_due_card_spec sampleDB5 1 none 10).2 sampleRow5a (by decide)
  exact ⟨h.1, h.2.1, h.2.2 sampleRow5b (by decide) (by decide)⟩

/-! ## C7 -/

/-- C7: for a user holding the same canonical card in two different decks, the
two `ensure` calls create two distinct assignment rows, and recording a review
on the first leaves the second row — every field, in particular
`next_review_at` and `interval_minutes` — unchanged. -/
theorem independent_scheduling (db : DB) (u d1 d2 c : Nat) (t t' : Int) (rating : ReviewRating)
    (hids : ∀ r ∈ db.user_cards, r.id < db.next_id) (hd : d1 ≠ d2)
    (h1 : ∀ r ∈ db.user_cards, ¬(r.user_id = u ∧ r.deck_id = d1 ∧ r.card_id = c))
    (h2 : ∀ r ∈ db.user_cards, ¬(r.user_id = u ∧ r.deck_id = d2 ∧ r.card_id = c)) :
    ∃ r1 r2 db1 db2 db3,
      ensure_user_card db u d1 c t = ((r1, true), db1) ∧
      ensure_user_card db1 u d2 c t = ((r2, true), db2) ∧
      r1.id ≠ r2.id ∧
      record_review db2 u r1.id rating t' = .ok db3 ∧
      db3.user_cards.find? (fun x => x.id = r2.id) = some r2 ∧
      r2.next_review_at = t ∧ r2.interval_minutes = 0 := by
  have hf1 : db.user_cards.find?
      (fun r => r.user_id = u && r.deck_id = d1 && r.card_id = c) = none := by
    rw [List.find?_eq_none]
    intro r hr
    have := h1 r hr
    simp only [Bool.and_eq_true, decide_eq_true_eq]
    tauto
  obtain ⟨r1, hr1def⟩ : ∃ r1 : UserCardRecord,
      r1 = { id := db.next_id, user_id := u, deck_id := d1, card_id := c,
             last_rating := none, interval_minutes := 0, review_count := 0,
             next_review_at := t, last_reviewed_at := none, created_at := t } := ⟨_, rfl⟩
  obtain ⟨db1, hdb1def⟩ : ∃ db1 : DB,
      db1 = { db with
              user_cards := db.user_cards ++ [r1],
              next_id := db.next_id + 1 } := ⟨_, rfl⟩
  have hstep1 : ensure_user_card db u d1 c t = ((r1, true), db1) := by
    unfold ensure_user_card
    rw [hf1, hr1def, hdb1def, hr1def]
  have hf2 : db1.user_cards.find?
      (fun r => r.user_id = u && r.deck_id = d2 && r.card_id = c) = none := by
    rw [List.find?_eq_none]
    intro r hr
    have hr0 : r ∈ db.user_cards ++ [r1] := by
      rw [hdb1def] at hr
      exact hr
    rcases List.mem_append.mp hr0 with hr' | hr'
    · have := h2 r hr'
      simp only [Bool.and_eq_true, decide_eq_true_eq]
      tauto
    · have heq : r = r1 := by simpa using hr'
      subst heq
      simp [hr1def, hd]
  obtain ⟨r2, hr2def⟩ : ∃ r2 : UserCardRecord,
      r2 = { id := db1.next_id, user_id := u, deck_id := d2, card_id := c,
             last_rating := none, interval_minutes := 0, review_count := 0,
             next_review_at := t, last_reviewed_at := none, created_at := t } := ⟨_, rfl⟩
  obtain ⟨db2', hdb2def⟩ : ∃ db2' : DB,
      db2' = { db1 with
               user_cards := db1.user_cards ++ [r2],
               next_id := db1.next_id + 1 } := ⟨_, rfl⟩
  have hstep2 : ensure_user_card db1 u d2 c t = ((r2, true), db2') := by
    unfold ensure_user_card
    rw [hf2, hr2def, hdb2def, hr2def]
  have hne : r1.id ≠ r2.id := by
    rw [hr1def, hr2def, hdb1def]
    show db.next_id ≠ db.next_id + 1
    omega
  have holdcards : ∀ x ∈ db.user_cards, x.id ≠ db.next_id := by
    intro x hx
    have := hids x hx
    omega
  have hfr1 : db2'.user_cards.find? (fun x => x.id = r1.id) = some r1 := by
    have hA : db.user_cards.find? (fun x => x.id = r1.id) = none := by
      rw [List.find?_eq_none]
      intro x hx
      have := holdcards x hx
      simp only [decide_eq_true_eq]
      rw [hr1def]
      exact this
    have hB : [r1].find? (fun x => x.id = r1.id) = some r1 :=
      List.find?_cons_of_pos _ (by simp)
    have hcalc : (db.user_cards ++ [r1] ++ [r2]).find? (fun x => x.id = r1.id) = some r1 := by
      rw [List.find?_append, List.find?_append, hA, hB]
      rfl
    rw [hdb2def, hdb1def]
    exact hcalc
  have hstep3 : record_review db2' u r1.id rating t' =
      .ok (schedule_review db2' r1.id rating
        (calculate_next_interval r1.interval_minutes r1.review_count rating) t') := by
    unfold record_review
    rw [hfr1]
    simp [hr1def]
  have hfr2 : db2'.user_cards.find? (fun x => x.id = r2.id) = some r2 := by
    have hA : db.user_cards.find? (fun x => x.id = r2.id) = none := by
      rw [List.find?_eq_none]
      intro x hx
      have hx' := hids x hx
      simp only [decide_eq_true_eq]
      rw [hr2def]
      show ¬ x.id = db1.next_id
      rw [hdb1def]
      show ¬ x.id = db.next_id + 1
      omega
    have hB : [r1].find? (fun x => x.id = r2.id) = none := by
      rw [List.find?_eq_none]
      intro x hx
      obtain rfl : x = r1 := by simpa using hx
      simp only [decide_eq_true_eq]
      exact fun h => hne h
    have hC : [r2].find? (fun x => x.id = r2.id) = some r2 :=
      List.find?_cons_of_pos _ (by simp)
    have hcalc : (db.user_cards ++ [r1] ++ [r2]).find? (fun x => x.id = r2.id) = some r2 := by
      rw [List.find?_append, List.find?_append, hA, hB, hC]
      rfl
    rw [hdb2def, hdb1def]
    exact hcalc
  have hframe : (schedule_review db2' r1.id rating
      (calculate_next_interval r1.interval_minutes r1.review_count rating) t').user_cards.find?
        (fun x => x.id = r2.id) = some r2 := by
    unfold schedule_review
    exact find?_map_update_other db2'.user_cards r1.id r2.id
      (fun x => apply_schedule x rating
        (calculate_next_interval r1.interval_minutes r1.review_count rating) t')
      (fun x => rfl) r2 (fun h => hne h.symm) hfr2
  refine ⟨r1, r2, db1, db2', _, hstep1, hstep2, hne, hstep3, hframe, ?_, ?_⟩
  · rw [hr2def]
  · rw [hr2def]

/-- Witness for C7 in the empty sample database: card 5 ensured into decks 1
and 2, then reviewing the first row. -/
theorem independent_scheduling_witness :
    ∃ r1 r2 db1 db2 db3,
      ensure_user_card sampleDB7 1 1 5 0 = ((r1, true), db1) ∧
      ensure_user_card db1 1 2 5 0 = ((r2, true), db2) ∧
      r1.id ≠ r2.id ∧
      record_review db2 1 r1.id .again 50 = .ok db3 ∧
      db3.user_cards.find? (fun x => x.id = r2.id) = some r2 ∧
      r2.next_review_at = 0 ∧ r2.interval_minutes = 0 :=
  independent_scheduling sampleDB7 1 1 2 5 0 50 .again (by decide) (by decide)
    (by decide) (by decide)

/-! ## C8 -/

/-- C8: deleting a deck removes it together with every assignment row that
references it (and nothing else), fails with NotFound when no deck with that
id belongs to the owner, and clears any user's active-deck reference to the
deleted deck while keeping users whose active deck was different. -/
theorem delete_deck_spec (db : DB) (owner did : Nat) :
    ((∀ d ∈ db.decks, ¬(d.id = did ∧ d.owner_id = some owner)) →
      delete_deck db owner did = .error .notFound) ∧
    (∀ d0 ∈ db.decks, d0.id = did → d0.owner_id = some owner →
      ∃ db', delete_deck db owner did = .ok db' ∧
        (∀ d ∈ db'.decks, d.id ≠ did) ∧
        (∀ d, d ∈ db'.decks ↔ d ∈ db.decks ∧ d.id ≠ did) ∧
        (∀ r, r ∈ db'.user_cards ↔ r ∈ db.user_cards ∧ r.deck_id ≠ did) ∧
        (∀ u ∈ db'.users, u.active_deck_id ≠ some did) ∧
        (∀ u ∈ db.users, u.active_deck_id ≠ some did → u ∈ db'.users)) := by
  constructor
  · intro h
    have hnone : get_deck db owner did = none := by
      unfold get_deck
      rw [List.find?_eq_none]
      intro d hdm
      have := h d hdm
      simp only [Bool.and_eq_true, decide_eq_true_eq]
      tauto
    unfold delete_deck
    rw [hnone]
  · intro d0 hd0 hid hown
    have hsome : (get_deck db owner did).isSome := by
      unfold get_deck
      rw [List.find?_isSome]
      exact ⟨d0, hd0, by simp [hid, hown]⟩
    obtain ⟨dfound, hfound⟩ := Option.isSome_iff_exists.mp hsome
    have hstep : delete_deck db owner did = .ok
        { db with
          decks := db.decks.filter (fun d => d.id ≠ did),
          user_cards := db.user_cards.filter (fun r => r.deck_id ≠ did),
          users := db.users.map (fun u =>
            if u.active_deck_id = some did then { u with active_deck_id := none } else u) } := by
      unfold delete_deck
      rw [hfound]
    refine ⟨_, hstep, ?_, ?_, ?_, ?_, ?_⟩
    · intro d hdm
      have := (List.mem_filter.mp hdm).2
      simpa using this
    · intro d
      constructor
      · intro hdm
        have := List.mem_filter.mp hdm
        exact ⟨this.1, by simpa using this.2⟩
      · intro ⟨hdm, hne⟩
        exact List.mem_filter.mpr ⟨hdm, by simpa using hne⟩
    · intro r
      constructor
      · intro hrm
        have := List.mem_filter.mp hrm
        exact ⟨this.1, by simpa using this.2⟩
      · intro ⟨hrm, hne⟩
        exact List.mem_filter.mpr ⟨hrm, by simpa using hne⟩
    · intro u hu
      obtain ⟨x, hx, rfl⟩ := List.mem_map.mp hu
      by_cases hxa : x.active_deck_id = some did
      · rw [if_pos hxa]
        simp
      · rw [if_neg hxa]
        exact hxa
    · intro u hu hua
      have : (if u.active_deck_id = some did then
          { u with active_deck_id := none } else u) = u := if_neg hua
      rw [← this]
      exact List.mem_map_of_mem _ hu

/-- Witness for C8: deleting deck 1 of the sample database removes its
assignment row and clears the user's active-deck reference; deleting it as
owner 2 fails with NotFound. -/
theorem delete_deck_spec_witness :
    delete_deck sampleDB8 2 1 = .error .notFound ∧
    ∃ db', delete_deck sampleDB8 1 1 = .ok db' ∧
      (∀ d ∈ db'.decks, d.id ≠ 1) ∧
      (∀ d, d ∈ db'.decks ↔ d ∈ sampleDB8.decks ∧ d.id ≠ 1) ∧
      (∀ r, r ∈ db'.user_cards ↔ r ∈ sampleDB8.user_cards ∧ r.deck_id ≠ 1) ∧
      (∀ u ∈ db'.users, u.active_deck_id ≠ some 1) ∧
      (∀ u ∈ sampleDB8.users, u.active_deck_id ≠ some 1 → u ∈ db'.users) :=
  ⟨(delete_deck_spec sampleDB8 2 1).1 (by decide),
   (delete_deck_spec sampleDB8 1 1).2 sampleDeck8 (by decide) (by decide) (by decide)⟩

/-! ## Frame lemmas for the service runs -/

/-- Upserting a user never touches the card table. -/
theorem upsert_user_cards (db : DB) (uid : Nat) (a b c : Option String) :
    (upsert_user db uid a b c).2.cards = db.cards := by
  unfold upsert_user
  cases db.users.find? (fun u => u.id = uid) <;> rfl

/-- Upserting a user never touches the deck table. -/
theorem upsert_user_decks (db : DB) (uid : Nat) (a b c : Option String) :
    (upsert_user db uid a b c).2.decks = db.decks := by
  unfold upsert_user
  cases db.users.find? (fun u => u.id = uid) <;> rfl

/-- The upserted user carries the requested id. -/
theorem upsert_user_id (db : DB) (uid : Nat) (a b c : Option String) :
    (upsert_user db uid a b c).1.id = uid := by
  unfold upsert_user
  cases h : db.users.find? (fun u => u.id = uid) with
  | none => rfl
  | some u =>
      have : u.id = uid := by simpa using List.find?_some h
      simpa using this

/-- Ensuring the default deck never touches the card table. -/
theorem ensure_deck_cards (db : DB) (o : Nat) (now : Int) :
    (ensure_deck db o now).2.cards = db.cards := by
  unfold ensure_deck
  cases db.decks.find? (fun d => d.owner_id = some o && d.slug = "default") <;> rfl

/-- Ensuring an assignment never touches the card table. -/
theorem ensure_user_card_cards (db : DB) (u d c : Nat) (t : Int) :
    (ensure_user_card db u d c t).2.cards = db.cards := by
  unfold ensure_user_card
  cases db.user_cards.find?
    (fun r => r.user_id = u && r.deck_id = d && r.card_id = c) <;> rfl

/-- Successful card creation: the new card carries the normalized source key
and is appended to the card table. -/
theorem create_card_ok (db : DB) (st tt es et : String) (pos : Option String)
    (hfree : (db.cards.find?
      (fun c => c.normalized_source_text = normalize_text st)).isSome = false) :
    ∃ card db1, create_card db st tt es et pos = .ok (card, db1) ∧
      card.normalized_source_text = normalize_text st ∧
      db1.cards = db.cards ++ [card] := by
  unfold create_card
  rw [if_neg (by simp [hfree])]
  exact ⟨_, _, rfl, rfl, rfl⟩

/-- The reuse branch of the `add_words` loop body. -/
theorem addOneWord_reuse (gen : Generator) (uid did : Nat) (t : Int) (db : DB) (w : String)
    (c : CardRecord) (hc : get_card_by_normalized db (normalize_text w) = some c) :
    addOneWord gen uid did t db w =
      ({ input_text := w, created_card := false, reused_existing_card := true,
         linked_to_user := (ensure_user_card db uid did c.id t).1.2,
         card := some (toFlashcardData c),
         user_card_id := some (ensure_user_card db uid did c.id t).1.1.id,
         error := none }, (ensure_user_card db uid did c.id t).2) := by
  simp only [addOneWord]
  rw [hc]

/-- The create branch of the `add_words` loop body. -/
theorem addOneWord_create (gen : Generator) (uid did : Nat) (t : Int) (db : DB) (w : String)
    (g : GeneratedContent) (card : CardRecord) (db1 : DB)
    (hmiss : get_card_by_normalized db (normalize_text w) = none)
    (hgen : gen w = .ok g)
    (hcc : create_card db (if g.source_text = "" then w else g.source_text) g.target_text
      g.example_sentence g.example_translation g.part_of_speech = .ok (card, db1)) :
    addOneWord gen uid did t db w =
      ({ input_text := w, created_card := true, reused_existing_card := false,
         linked_to_user := (ensure_user_card db1 uid did card.id t).1.2,
         card := some (toFlashcardData card),
         user_card_id := some (ensure_user_card db1 uid did card.id t).1.1.id,
         error := none }, (ensure_user_card db1 uid did card.id t).2) := by
  simp only [addOneWord, hmiss, hgen, hcc]

/-- The duplicate-key branch of the `add_words` loop body: the exception is
caught, the word's result carries the error, nothing is linked and the store
is untouched. -/
theorem addOneWord_dup_error (gen : Generator) (uid did : Nat) (t : Int) (db : DB)
    (w : String) (g : GeneratedContent)
    (hmiss : get_card_by_normalized db (normalize_text w) = none)
    (hgen : gen w = .ok g)
    (hdup : (db.cards.find? (fun c => c.normalized_source_text =
        normalize_text (if g.source_text = "" then w else g.source_text))).isSome = true) :
    addOneWord gen uid did t db w = (errorResult w .duplicateKey, db) := by
  have hcc : create_card db (if g.source_text = "" then w else g.source_text) g.target_text
      g.example_sentence g.example_translation g.part_of_speech = .error .duplicateKey := by
    unfold create_card
    rw [if_pos hdup]
  simp only [addOneWord, hmiss, hgen, hcc]

/-- Running `add_words` on one non-blank word: the user is upserted, the
default deck ensured (neither touches the card table), and the loop body runs
once on the trimmed word. -/
theorem add_words_single (gen : Generator) (db : DB) (p : UserProfile) (w : String) (t : Int)
    (hw : pyStrip w ≠ "") :
    ∃ uid did db2, db2.cards = db.cards ∧
      add_words gen db p [w] t =
        ([(addOneWord gen uid did t db2 (pyStrip w)).1],
         (addOneWord gen uid did t db2 (pyStrip w)).2) := by
  obtain ⟨user, db1, hupsert⟩ : ∃ u d,
      upsert_user db p.user_id p.username p.first_name p.last_name = (u, d) := ⟨_, _, rfl⟩
  obtain ⟨deck, db2, hdeck⟩ : ∃ a b, ensure_deck db1 user.id t = (a, b) := ⟨_, _, rfl⟩
  refine ⟨user.id, deck.id, db2, ?_, ?_⟩
  · have h1 := upsert_user_cards db p.user_id p.username p.first_name p.last_name
    rw [hupsert] at h1
    have h2 := ensure_deck_cards db1 user.id t
    rw [hdeck] at h2
    rw [h2, h1]
  · unfold add_words
    have hclean : (([w].map pyStrip).filter (fun x => x ≠ "")) = [pyStrip w] := by
      simp [hw]
    rw [hclean]
    simp only [List.isEmpty_cons, Bool.false_eq_true, if_false, hupsert, hdeck]
    simp only [addWordsLoop]

/-! ## Card-count lemmas -/

/-- A missed lookup means no stored card carries the key. -/
theorem count_key_zero (db : DB) (key : String)
    (h : get_card_by_normalized db key = none) :
    (db.cards.filter (fun c => c.normalized_source_text = key)).length = 0 := by
  unfold get_card_by_normalized at h
  rw [List.find?_eq_none] at h
  rw [List.length_eq_zero, List.filter_eq_nil_iff]
  exact h

/-- A successful lookup means some stored card carries the key. -/
theorem count_pos_of_lookup (db : DB) (key : String) (c : CardRecord)
    (h : get_card_by_normalized db key = some c) :
    0 < (db.cards.filter (fun x => x.normalized_source_text = key)).length := by
  unfold get_card_by_normalized at h
  have hmem := List.mem_of_find?_eq_some h
  have hpred := List.find?_some h
  have hin : c ∈ db.cards.filter (fun x => x.normalized_source_text = key) :=
    List.mem_filter.mpr ⟨hmem, hpred⟩
  exact List.length_pos.mpr (List.ne_nil_of_mem hin)

/-- With exactly one card under the key, the lookup succeeds. -/
theorem lookup_of_count_one (db : DB) (key : String)
    (h : (db.cards.filter (fun c => c.normalized_source_text = key)).length = 1) :
    (get_card_by_normalized db key).isSome = true := by
  unfold get_card_by_normalized
  rw [List.find?_isSome]
  cases hfl : db.cards.filter (fun c => c.normalized_source_text = key) with
  | nil =>
      rw [hfl] at h
      simp at h
  | cons c cs =>
      have hcmem : c ∈ db.cards.filter (fun x => x.normalized_source_text = key) := by
        rw [hfl]
        exact List.mem_cons_self ..
      have hc := List.mem_filter.mp hcmem
      exact ⟨c, hc.1, hc.2⟩

/-! ## C2 -/

/-- Counterexample to C2 as stated: with a generator that rewrites the source
text, adding `Hello` and then `hello` for two different users leaves no
canonical card whose normalized source text is the words' common key, and the
second add reports `reused_existing_card = false` with an error instead of
reusing — the dedup key of a created card comes from the generated source
text, not from the looked-up word. -/
theorem dedup_counterexample :
    ((add_words rewritingGen (add_words rewritingGen DB.empty sampleProfile ["Hello"] 0).2
        sampleProfileB ["hello"] 0).1.map
      (fun r => (r.created_card, r.reused_existing_card, r.error.isSome))) =
      [(false, false, true)] ∧
    (((add_words rewritingGen (add_words rewritingGen DB.empty sampleProfile ["Hello"] 0).2
        sampleProfileB ["hello"] 0).2.cards.filter
      (fun c => c.normalized_source_text = normalize_text "Hello")).length) = 0 :=
  ⟨rfl, rfl⟩

/-- C2 (amended): the dedup invariant holds provided the generator, invoked
for the first word, succeeds with a source text that is blank or normalizes to
the word's own key, and the store initially satisfies the uniqueness invariant
(at most one card under the key): after both adds exactly one canonical card
carries the normalized key, and the second add reports `created_card = false`
and `reused_existing_card = true`. -/
theorem dedup_invariant (genA genB : Generator) (db : DB) (p1 p2 : UserProfile)
    (w1 w2 : String) (t1 t2 : Int) (g1 : GeneratedContent)
    (hkey : normalize_text w1 = normalize_text w2)
    (hw1 : pyStrip w1 ≠ "") (hw2 : pyStrip w2 ≠ "")
    (hg1 : genA (pyStrip w1) = .ok g1)
    (hsrc : g1.source_text = "" ∨ normalize_text g1.source_text = normalize_text w1)
    (hcount : (db.cards.filter
      (fun c => c.normalized_source_text = normalize_text w1)).length ≤ 1) :
    (((add_words genB (add_words genA db p1 [w1] t1).2 p2 [w2] t2).2.cards.filter
        (fun c => c.normalized_source_text = normalize_text w1)).length = 1) ∧
    ((add_words genB (add_words genA db p1 [w1] t1).2 p2 [w2] t2).1.map
        (fun r => (r.created_card, r.reused_existing_card))) = [(false, true)] := by
  obtain ⟨u1, d1, dbA, hAcards, hArun⟩ := add_words_single genA db p1 w1 t1 hw1
  have hkey1 : normalize_text (pyStrip w1) = normalize_text w1 := normalize_text_pyStrip w1
  have hafter1 : ((add_words genA db p1 [w1] t1).2.cards.filter
      (fun c => c.normalized_source_text = normalize_text w1)).length = 1 := by
    rw [hArun]
    cases hlook : get_card_by_normalized dbA (normalize_text (pyStrip w1)) with
    | some c =>
        rw [addOneWord_reuse genA u1 d1 t1 dbA (pyStrip w1) c hlook]
        show ((ensure_user_card dbA u1 d1 c.id t1).2.cards.filter
          (fun c => c.normalized_source_text = normalize_text w1)).length = 1
        rw [ensure_user_card_cards, hAcards]
        have hlook' : get_card_by_normalized db (normalize_text w1) = some c := by
          unfold get_card_by_normalized at hlook ⊢
          rw [← hAcards, ← hkey1]
          exact hlook
        have hpos := count_pos_of_lookup db (normalize_text w1) c hlook'
        omega
    | none =>
        have hlookA : get_card_by_normalized dbA (normalize_text w1) = none := by
          rw [← hkey1]
          exact hlook
        have hkeq : normalize_text
            (if g1.source_text = "" then pyStrip w1 else g1.source_text) =
            normalize_text w1 := by
          by_cases hb : g1.source_text = ""
          · rw [if_pos hb, hkey1]
          · rw [if_neg hb]
            rcases hsrc with h | h
            · exact absurd h hb
            · exact h
        have hfree : (dbA.cards.find? (fun c => c.normalized_source_text =
            normalize_text (if g1.source_text = "" then pyStrip w1
              else g1.source_text))).isSome = false := by
          rw [hkeq]
          unfold get_card_by_normalized at hlookA
          rw [hlookA]
          rfl
        obtain ⟨card, dbA1, hcc, hkeyc, hcards1⟩ := create_card_ok dbA
          (if g1.source_text = "" then pyStrip w1 else g1.source_text)
          g1.target_text g1.example_sentence g1.example_translation g1.part_of_speech hfree
        rw [addOneWord_create genA u1 d1 t1 dbA (pyStrip w1) g1 card dbA1 hlook hg1 hcc]
        show ((ensure_user_card dbA1 u1 d1 card.id t1).2.cards.filter
          (fun c => c.normalized_source_text = normalize_text w1)).length = 1
        rw [ensure_user_card_cards, hcards1, List.filter_append, List.length_append]
        have hz : (dbA.cards.filter
            (fun c => c.normalized_source_text = normalize_text w1)).length = 0 :=
          count_key_zero dbA (normalize_text w1) hlookA
        rw [hz]
        have hcard1 : ([card].filter
            (fun c => c.normalized_source_text = normalize_text w1)) = [card] := by
          simp [List.filter, hkeyc, hkeq]
        rw [hcard1]
        rfl
  obtain ⟨u2, d2, dbB, hBcards, hBrun⟩ :=
    add_words_single genB (add_words genA db p1 [w1] t1).2 p2 w2 t2 hw2
  have hkey2 : normalize_text (pyStrip w2) = normalize_text w2 := normalize_text_pyStrip w2
  have hcount2 : (dbB.cards.filter
      (fun c => c.normalized_source_text = normalize_text w1)).length = 1 := by
    rw [hBcards]
    exact hafter1
  have hsome := lookup_of_count_one dbB (normalize_text w1) hcount2
  obtain ⟨c2, hc2⟩ := Option.isSome_iff_exists.mp hsome
  have hc2' : get_card_by_normalized dbB (normalize_text (pyStrip w2)) = some c2 := by
    rw [hkey2, ← hkey]
    exact hc2
  constructor
  · rw [hBrun, addOneWord_reuse genB u2 d2 t2 dbB (pyStrip w2) c2 hc2']
    show ((ensure_user_card dbB u2 d2 c2.id t2).2.cards.filter
      (fun c => c.normalized_source_text = normalize_text w1)).length = 1
    rw [ensure_user_card_cards]
    exact hcount2
  · rw [hBrun, addOneWord_reuse genB u2 d2 t2 dbB (pyStrip w2) c2 hc2']
    rfl

/-- Witness for the amended C2: `Hello` then `\x20hello\x20` via the echoing
generator starting from the empty store. -/
theorem dedup_invariant_witness :
    (((add_words echoGen (add_words echoGen DB.empty sampleProfile ["Hello"] 0).2
        sampleProfileB [" hello "] 0).2.cards.filter
      (fun c => c.normalized_source_text = normalize_text "Hello")).length = 1) ∧
    ((add_words echoGen (add_words echoGen DB.empty sampleProfile ["Hello"] 0).2
        sampleProfileB [" hello "] 0).1.map
      (fun r => (r.created_card, r.reused_existing_card))) = [(false, true)] :=
  dedup_invariant echoGen echoGen DB.empty sampleProfile sampleProfileB
    "Hello" " hello " 0 0
    { source_text := "Hello", target_text := "t", example_sentence := "e",
      example_translation := "f", part_of_speech := none }
    (by decide) (by decide) (by decide) rfl (by decide) (by decide)

/-! ## C3 -/

/-- Counterexample to C3 as stated: in an `add_words` batch whose second word
hits the duplicate-key violation on canonical-card creation, the service does
not recover by re-querying and linking — that word's result surfaces the
duplicate-key error and carries no assignment — and `create_card_for_deck`
propagates the violation to the caller outright. -/
theorem duplicate_key_counterexample :
    ((add_words rewritingGen DB.empty sampleProfile ["a", "b"] 0).1.map
        (fun r => (r.error, r.linked_to_user, r.user_card_id))) =
      [(none, true, some 2), (some .duplicateKey, false, none)] ∧
    create_card_for_deck rewritingGen sampleDB3 sampleProfile 0 "b" 0 =
      .error .duplicateKey :=
  ⟨rfl, rfl⟩

/-- C3 (amended): when canonical-card creation fails with the duplicate-key
uniqueness violation, `add_words` catches it per word and reports it in that
word's result — the error field is populated, nothing is linked, and no card
row is added (no second canonical card appears) — while `create_card_for_deck`,
which has no handler, propagates the violation to the caller as an error. -/
theorem duplicate_key_error_surfaced (gen : Generator) (db : DB) (p : UserProfile)
    (w : String) (t : Int) (g : GeneratedContent) (deck : DeckRecord) (did : Nat)
    (hw : pyStrip w ≠ "")
    (hgen : gen (pyStrip w) = .ok g)
    (hmiss : get_card_by_normalized db (normalize_text w) = none)
    (hmisst : get_card_by_normalized_target db (normalize_text w) = none)
    (hdup : (db.cards.find? (fun c => c.normalized_source_text =
        normalize_text (if g.source_text = "" then pyStrip w
          else g.source_text))).isSome = true)
    (hdeck : get_deck db p.user_id did = some deck) :
    (add_words gen db p [w] t).1 = [errorResult (pyStrip w) .duplicateKey] ∧
    (add_words gen db p [w] t).2.cards = db.cards ∧
    create_card_for_deck gen db p did w t = .error .duplicateKey := by
  obtain ⟨uid, did2, db2, hcards, hrun⟩ := add_words_single gen db p w t hw
  have hmiss2 : get_card_by_normalized db2 (normalize_text (pyStrip w)) = none := by
    unfold get_card_by_normalized at hmiss ⊢
    rw [hcards, normalize_text_pyStrip]
    exact hmiss
  have hdup2 : (db2.cards.find? (fun c => c.normalized_source_text =
      normalize_text (if g.source_text = "" then pyStrip w
        else g.source_text))).isSome = true := by
    rw [hcards]
    exact hdup
  have hone := addOneWord_dup_error gen uid did2 t db2 (pyStrip w) g hmiss2 hgen hdup2
  refine ⟨?_, ?_, ?_⟩
  · rw [hrun, hone]
  · rw [hrun, hone]
    exact hcards
  · simp only [create_card_for_deck]
    rw [if_neg hw]
    obtain ⟨user, db1, hupsert⟩ : ∃ u d,
        upsert_user db p.user_id p.username p.first_name p.last_name = (u, d) := ⟨_, _, rfl⟩
    simp only [hupsert]
    have huid : user.id = p.user_id := by
      have h := upsert_user_id db p.user_id p.username p.first_name p.last_name
      rw [hupsert] at h
      exact h
    have hdecks : db1.decks = db.decks := by
      have h := upsert_user_decks db p.user_id p.username p.first_name p.last_name
      rw [hupsert] at h
      exact h
    have hdbcards : db1.cards = db.cards := by
      have h := upsert_user_cards db p.user_id p.username p.first_name p.last_name
      rw [hupsert] at h
      exact h
    have hget : get_deck db1 user.id did = some deck := by
      unfold get_deck at hdeck ⊢
      rw [hdecks, huid]
      exact hdeck
    simp only [hget]
    have hm1 : get_card_by_normalized db1 (normalize_text (pyStrip w)) = none := by
      unfold get_card_by_normalized at hmiss ⊢
      rw [hdbcards, normalize_text_pyStrip]
      exact hmiss
    have hm2 : get_card_by_normalized_target db1 (normalize_text (pyStrip w)) = none := by
      unfold get_card_by_normalized_target at hmisst ⊢
      rw [hdbcards, normalize_text_pyStrip]
      exact hmisst
    have hcondb : (db1.cards.find? (fun c => c.normalized_source_text =
        normalize_text (if g.source_text = "" then pyStrip w
          else g.source_text))).isSome = true := by
      rw [hdbcards]
      exact hdup
    have hcc : create_card db1 (if g.source_text = "" then pyStrip w else g.source_text)
        g.target_text g.example_sentence g.example_translation g.part_of_speech =
        .error .duplicateKey := by
      unfold create_card
      rw [if_pos hcondb]
    simp only [hm1, hm2, hgen, hcc]

/-- Witness for the amended C3 at the sample store where the key `x` is
already taken. -/
theorem duplicate_key_error_surfaced_witness :
    (add_words rewritingGen sampleDB3 sampleProfile ["b"] 0).1 =
      [errorResult (pyStrip "b") .duplicateKey] ∧
    (add_words rewritingGen sampleDB3 sampleProfile ["b"] 0).2.cards = sampleDB3.cards ∧
    create_card_for_deck rewritingGen sampleDB3 sampleProfile 0 "b" 0 =
      .error .duplicateKey :=
  duplicate_key_error_surfaced rewritingGen sampleDB3 sampleProfile "b" 0
    { source_text := "X", target_text := "t", example_sentence := "e",
      example_translation := "f", part_of_speech := none }
    sampleDeck3 0
    (by decide) rfl (by decide) (by decide) (by decide) (by decide)

end LangAgent
